import Mathlib

/-!
Verification of the `voicery.py` client library against its specification.

The module is a thin HTTP client: a `Voicery` handle holds an optional API
key and a lazily cached speaker listing; `get_available_speakers` performs
an authenticated GET to `/speakers`, `stream` is a generator that validates
its arguments and issues a streaming POST to `/generate`, and `synthesize`
drains the stream into one buffer and optionally writes it out.

The embedding makes the side effects explicit: every operation returns its
result together with the list of HTTP requests it issued, and `synthesize`
additionally threads a file-system map.  Python exceptions become an
`Except` result; Python `dict`s (which preserve insertion order) become
association lists in insertion order.
-/

/-- A byte string, as an abstract list of byte values. -/
abbrev Bytes := List Nat

/-- `Style = namedtuple("Style", "id name")`. -/
structure Style where
  id : String
  name : String
deriving DecidableEq, Repr

/-- `Speaker = namedtuple("Speaker", "id name gender language styles default_style")`.
The `styles` dict is modelled as an association list in insertion order. -/
structure Speaker where
  id : String
  name : String
  gender : String
  language : String
  styles : List (String × Style)
  default_style : String
deriving DecidableEq, Repr

/-- Exceptions the embedded code can raise: `VoiceryError(msg)` (quotes inside
the source's message strings are dropped), and the `IndexError` that
`speaker["styles"][0]` raises on an empty styles list. -/
inductive PyExn where
  | VoiceryError : String → PyExn
  | IndexError : PyExn
deriving DecidableEq, Repr

/-- A JSON scalar value as used in the `/generate` request body. -/
inductive JVal where
  | str : String → JVal
  | int : Int → JVal
  | bool : Bool → JVal
deriving DecidableEq, Repr

/-- An HTTP request as issued through `requests.get` / `requests.post`:
method, URL, headers, and the JSON body (a `dict` in insertion order)
when one is sent. -/
structure HttpRequest where
  method : String
  url : String
  headers : List (String × String)
  body : Option (List (String × JVal))
deriving DecidableEq, Repr

/-- `VOICERY_URL = "https://api.voicery.com"`. -/
def VOICERY_URL : String := "https://api.voicery.com"

/-- One element of the JSON array returned by `GET /speakers`:
`{id, name, gender, lang, styles: [{id, name}, ...]}`. -/
structure RawStyle where
  id : String
  name : String
deriving DecidableEq, Repr

/-- A speaker object of the `/speakers` response. -/
structure RawSpeaker where
  id : String
  name : String
  gender : String
  lang : String
  styles : List RawStyle
deriving DecidableEq, Repr

/-- The `Voicery` handle: `self.key` and `self.available_speakers`
(`None` until the first successful listing; the cached dict is an
association list in insertion order). -/
structure Voicery where
  key : Option String
  available_speakers : Option (List (String × Speaker))
deriving DecidableEq, Repr

/-- `Voicery.__init__`: store the key, no cached speakers yet. -/
def Voicery.init (key : Option String) : Voicery :=
  { key := key, available_speakers := none }

/-- The header dict built in both `get_available_speakers` and `stream`:
empty if `self.key is None`, else `{"Authorization": f"Bearer {self.key}"}`. -/
def mkHeaders (key : Option String) : List (String × String) :=
  match key with
  | none => []
  | some k => [("Authorization", "Bearer " ++ k)]

/-- The `Speaker(...)` record built for one element of the `/speakers`
response; `none` models the `IndexError` from `speaker["styles"][0]` when
the styles list is empty. -/
def buildSpeaker (raw : RawSpeaker) : Option Speaker :=
  match raw.styles with
  | [] => none
  | s0 :: _ =>
    some { id := raw.id
           name := raw.name
           gender := raw.gender
           language := raw.lang
           styles := raw.styles.map (fun s => (s.id, Style.mk s.id s.name))
           default_style := s0.id }

/-- The whole dict comprehension of `get_available_speakers`: build a
`Speaker` for every element of the response, failing if any has no styles. -/
def buildSpeakers (resp : List RawSpeaker) : Option (List (String × Speaker)) :=
  resp.mapM (fun raw => (buildSpeaker raw).map (fun sp => (raw.id, sp)))

/-- The GET request issued by `get_available_speakers` on a cache miss. -/
def speakersRequest (key : Option String) : HttpRequest :=
  { method := "GET"
    url := VOICERY_URL ++ "/speakers"
    headers := mkHeaders key
    body := none }

/-- `Voicery.get_available_speakers`.  `resp` is the decoded JSON the
transport would deliver for this call.  Returns the result (the mapping, or
the `IndexError` raised inside the dict comprehension), the updated handle,
and the list of HTTP requests issued. -/
def Voicery.get_available_speakers (c : Voicery) (resp : List RawSpeaker) :
    Except PyExn (List (String × Speaker)) × Voicery × List HttpRequest :=
  match c.available_speakers with
  | some m => (Except.ok m, c, [])
  | none =>
    match buildSpeakers resp with
    | none => (Except.error PyExn.IndexError, c, [speakersRequest c.key])
    | some m =>
      (Except.ok m, { c with available_speakers := some m }, [speakersRequest c.key])

/-- The `speaker` argument of `stream`: a `str`, a `Speaker` record, or any
other Python value. -/
inductive SpeakerArg where
  | str : String → SpeakerArg
  | record : Speaker → SpeakerArg
  | other : SpeakerArg
deriving DecidableEq, Repr

/-- The `style` argument of `stream` when it is not `None`: a `str`, a
`Style` record, or any other Python value. -/
inductive StyleArg where
  | str : String → StyleArg
  | record : Style → StyleArg
  | other : StyleArg
deriving DecidableEq, Repr

/-- The first validation block of `stream`: extract a `Speaker` record's id,
accept a `str` as is, and raise `VoiceryError` for anything else. -/
def resolveSpeaker : SpeakerArg → Except PyExn String
  | SpeakerArg.record s => Except.ok s.id
  | SpeakerArg.str s => Except.ok s
  | SpeakerArg.other =>
      Except.error (PyExn.VoiceryError "Argument speaker must be str or voicery.Speaker")

/-- The second validation block of `stream`: `None` passes through, a
`Style` record is replaced by its id, a `str` is accepted as is, anything
else raises `VoiceryError`. -/
def resolveStyle : Option StyleArg → Except PyExn (Option String)
  | none => Except.ok none
  | some (StyleArg.record s) => Except.ok (some s.id)
  | some (StyleArg.str s) => Except.ok (some s)
  | some StyleArg.other =>
      Except.error (PyExn.VoiceryError "Argument style must be str or voicery.Style")

/-- The `data` dict of `stream`: the five unconditional fields
(`int(sample_rate)` and `bool(ssml)` are identities on `Int` and `Bool`),
plus `data["style"] = style` appended when a style was supplied. -/
def requestBody (text sid encoding : String) (sample_rate : Int) (ssml : Bool)
    (style : Option String) : List (String × JVal) :=
  let data : List (String × JVal) :=
    [("text", JVal.str text),
     ("speaker", JVal.str sid),
     ("encoding", JVal.str encoding),
     ("sampleRate", JVal.int sample_rate),
     ("ssml", JVal.bool ssml)]
  match style with
  | none => data
  | some s => data ++ [("style", JVal.str s)]

/-- The body of the `stream` generator, run to completion: argument
validation in source order, then the streaming POST to `/generate`, then the
chunks of the response body (`respChunks` is what the transport delivers via
`iter_content`).  Returns the yielded chunks (or the exception raised) and
the HTTP requests issued. -/
def Voicery.streamBody (c : Voicery) (speaker : SpeakerArg) (text : String)
    (style : Option StyleArg) (encoding : String) (sample_rate : Int)
    (ssml : Bool) (respChunks : List Bytes) :
    Except PyExn (List Bytes) × List HttpRequest :=
  match resolveSpeaker speaker with
  | Except.error e => (Except.error e, [])
  | Except.ok sid =>
    match resolveStyle style with
    | Except.error e => (Except.error e, [])
    | Except.ok styleId =>
      if encoding ∈ (["mp3", "wav", "pcm"] : List String) then
        if sample_rate ∈ ([8000, 16000, 24000] : List Int) then
          let req : HttpRequest :=
            { method := "POST"
              url := VOICERY_URL ++ "/generate"
              headers := mkHeaders c.key
              body := some (requestBody text sid encoding sample_rate ssml styleId) }
          (Except.ok respChunks, [req])
        else
          (Except.error
            (PyExn.VoiceryError "Argument sample_rate must be one of 24000, 16000, 8000"), [])
      else
        (Except.error
          (PyExn.VoiceryError "Argument encoding must be one of mp3, wav, pcm"), [])

/-- A not-yet-started generator object returned by calling the generator
function `stream`: it packages the receiver and the arguments; none of the
body has run. -/
structure StreamGen where
  client : Voicery
  speaker : SpeakerArg
  text : String
  style : Option StyleArg
  encoding : String
  sample_rate : Int
  ssml : Bool
deriving DecidableEq, Repr

/-- Calling `stream(...)`: because the function contains `yield`, Python
builds a generator object and executes none of the body.  The call itself
therefore raises no exception and issues no request, for any arguments. -/
def Voicery.stream (c : Voicery) (speaker : SpeakerArg) (text : String)
    (style : Option StyleArg) (encoding : String) (sample_rate : Int)
    (ssml : Bool) : Except PyExn StreamGen × List HttpRequest :=
  (Except.ok
    { client := c, speaker := speaker, text := text, style := style,
      encoding := encoding, sample_rate := sample_rate, ssml := ssml }, [])

/-- Advancing the generator to exhaustion: only now does the body of
`stream` execute (validation, the POST, the yields). -/
def StreamGen.run (g : StreamGen) (respChunks : List Bytes) :
    Except PyExn (List Bytes) × List HttpRequest :=
  Voicery.streamBody g.client g.speaker g.text g.style g.encoding
    g.sample_rate g.ssml respChunks

/-- `b"".join(...)`. -/
def joinBytes (chunks : List Bytes) : Bytes :=
  chunks.flatten

/-- The file system, as a map from path to contents. -/
abbrev FS := List (String × Bytes)

/-- `open(path, "wb")` followed by `handle.write(data)`: create the file or
truncate an existing one, then write `data`. -/
def FS.writeFile (fs : FS) (path : String) (data : Bytes) : FS :=
  (path, data) :: fs.filter (fun e => e.1 ≠ path)

/-- Look a path up in the file system. -/
def FS.read (fs : FS) (path : String) : Option Bytes :=
  (fs.find? (fun e => e.1 = path)).map Prod.snd

/-- The `output` argument of `synthesize` when it is not `None`: a `str`
path, or any other value (treated as a writable handle). -/
inductive OutputArg where
  | path : String → OutputArg
  | handle : OutputArg
deriving DecidableEq, Repr

/-- `Voicery.synthesize`: drain `self.stream(speaker, text, **kwargs)` into
one buffer; if `output is None` return it, if it is a `str` open it with
mode "wb" and write the buffer, otherwise call `output.write`.  Returns the
Python return value (`some` buffer or `none` for `None`), the updated file
system, the writes made to a handle output, and the requests issued. -/
def Voicery.synthesize (c : Voicery) (speaker : SpeakerArg) (text : String)
    (output : Option OutputArg) (style : Option StyleArg) (encoding : String)
    (sample_rate : Int) (ssml : Bool) (respChunks : List Bytes) (fs : FS) :
    Except PyExn (Option Bytes) × FS × List Bytes × List HttpRequest :=
  match Voicery.streamBody c speaker text style encoding sample_rate ssml respChunks with
  | (Except.error e, trace) => (Except.error e, fs, [], trace)
  | (Except.ok chunks, trace) =>
    let data := joinBytes chunks
    match output with
    | none => (Except.ok (some data), fs, [], trace)
    | some (OutputArg.path p) => (Except.ok none, FS.writeFile fs p data, [], trace)
    | some OutputArg.handle => (Except.ok none, fs, [data], trace)

/-- `n` successive calls to `get_available_speakers` on the same handle,
the transport answering each cache-missing call with `resp`; returns the
final handle and the concatenated request trace. -/
def callSpeakersN : Nat → Voicery → List RawSpeaker → Voicery × List HttpRequest
  | 0, c, _ => (c, [])
  | n + 1, c, resp =>
    let r := Voicery.get_available_speakers c resp
    let rest := callSpeakersN n r.2.1 resp
    (rest.1, r.2.2 ++ rest.2)

/-- Every result of `resolveSpeaker` is either a resolved id or a
`VoiceryError`. -/
theorem resolveSpeaker_cases (sp : SpeakerArg) :
    (∃ sid, resolveSpeaker sp = Except.ok sid) ∨
    (∃ msg, resolveSpeaker sp = Except.error (PyExn.VoiceryError msg)) := by
  cases sp with
  | str s => exact Or.inl ⟨s, rfl⟩
  | record s => exact Or.inl ⟨s.id, rfl⟩
  | other => exact Or.inr ⟨_, rfl⟩

/-- Every result of `resolveStyle` is either a resolved optional id or a
`VoiceryError`. -/
theorem resolveStyle_cases (st : Option StyleArg) :
    (∃ stid, resolveStyle st = Except.ok stid) ∨
    (∃ msg, resolveStyle st = Except.error (PyExn.VoiceryError msg)) := by
  cases st with
  | none => exact Or.inl ⟨none, rfl⟩
  | some s =>
    cases s with
    | str s => exact Or.inl ⟨some s, rfl⟩
    | record s => exact Or.inl ⟨some s.id, rfl⟩
    | other => exact Or.inr ⟨_, rfl⟩

/-- C1: for every call to `stream` with a supported encoding and
sample_rate, a resolvable speaker and no style, the JSON body of the single
POST to `/generate` is exactly the five fields `text`, `speaker` (the
resolved id), `encoding`, `sampleRate` (an integer) and `ssml` (a boolean),
in that order and with no other fields. -/
theorem stream_body_exact_when_style_unset (c : Voicery) (sp : SpeakerArg)
    (sid text encoding : String) (sample_rate : Int) (ssml : Bool)
    (respChunks : List Bytes)
    (hsp : resolveSpeaker sp = Except.ok sid)
    (henc : encoding ∈ (["mp3", "wav", "pcm"] : List String))
    (hsr : sample_rate ∈ ([8000, 16000, 24000] : List Int)) :
    (Voicery.streamBody c sp text none encoding sample_rate ssml respChunks).2 =
      [{ method := "POST"
         url := VOICERY_URL ++ "/generate"
         headers := mkHeaders c.key
         body := some [("text", JVal.str text),
                       ("speaker", JVal.str sid),
                       ("encoding", JVal.str encoding),
                       ("sampleRate", JVal.int sample_rate),
                       ("ssml", JVal.bool ssml)] }] := by
  unfold Voicery.streamBody
  rw [hsp]
  simp [resolveStyle, requestBody, henc, hsr]

/-- Witness for C1 at a concrete call. -/
theorem stream_body_exact_when_style_unset_witness :
    (Voicery.streamBody (Voicery.init none) (SpeakerArg.str "steve") "hello"
        none "mp3" 24000 false []).2 =
      [{ method := "POST"
         url := VOICERY_URL ++ "/generate"
         headers := mkHeaders none
         body := some [("text", JVal.str "hello"),
                       ("speaker", JVal.str "steve"),
                       ("encoding", JVal.str "mp3"),
                       ("sampleRate", JVal.int 24000),
                       ("ssml", JVal.bool false)] }] :=
  stream_body_exact_when_style_unset (Voicery.init none) (SpeakerArg.str "steve")
    "steve" "hello" "mp3" 24000 false [] rfl (by decide) (by decide)

/-- C2: whenever the stream body succeeds with some chunks, `synthesize`
with `output` unset returns the concatenation of those chunks in order;
with a path as `output` it returns `None` and the file system afterwards
holds exactly those bytes at that path. -/
theorem synthesize_concat_and_file (c : Voicery) (sp : SpeakerArg) (text : String)
    (st : Option StyleArg) (encoding : String) (sample_rate : Int) (ssml : Bool)
    (respChunks chunks : List Bytes) (trace : List HttpRequest) (p : String) (fs : FS)
    (h : Voicery.streamBody c sp text st encoding sample_rate ssml respChunks =
          (Except.ok chunks, trace)) :
    Voicery.synthesize c sp text none st encoding sample_rate ssml respChunks fs =
      (Except.ok (some (joinBytes chunks)), fs, [], trace) ∧
    Voicery.synthesize c sp text (some (OutputArg.path p)) st encoding sample_rate
        ssml respChunks fs =
      (Except.ok none, FS.writeFile fs p (joinBytes chunks), [], trace) ∧
    FS.read (FS.writeFile fs p (joinBytes chunks)) p = some (joinBytes chunks) := by
  refine ⟨?_, ?_, ?_⟩
  · unfold Voicery.synthesize
    rw [h]
  · unfold Voicery.synthesize
    rw [h]
  · unfold FS.read FS.writeFile
    simp [List.find?]

/-- Witness for C2 at a concrete call. -/
theorem synthesize_concat_and_file_witness :
    Voicery.synthesize (Voicery.init none) (SpeakerArg.str "steve") "hello" none
        none "mp3" 24000 false [[1, 2], [3]] [] =
      (Except.ok (some (joinBytes [[1, 2], [3]])), [], [],
        [HttpRequest.mk "POST" (VOICERY_URL ++ "/generate") (mkHeaders none)
          (some (requestBody "hello" "steve" "mp3" 24000 false none))]) ∧
    Voicery.synthesize (Voicery.init none) (SpeakerArg.str "steve") "hello"
        (some (OutputArg.path "out.mp3")) none "mp3" 24000 false [[1, 2], [3]] [] =
      (Except.ok none, FS.writeFile [] "out.mp3" (joinBytes [[1, 2], [3]]), [],
        [HttpRequest.mk "POST" (VOICERY_URL ++ "/generate") (mkHeaders none)
          (some (requestBody "hello" "steve" "mp3" 24000 false none))]) ∧
    FS.read (FS.writeFile [] "out.mp3" (joinBytes [[1, 2], [3]])) "out.mp3" =
      some (joinBytes [[1, 2], [3]]) :=
  synthesize_concat_and_file (Voicery.init none) (SpeakerArg.str "steve") "hello"
    none "mp3" 24000 false [[1, 2], [3]] [[1, 2], [3]] _ "out.mp3" [] rfl

/-- C3: a call to `stream` whose encoding is outside mp3/wav/pcm or whose
sample_rate is outside 8000/16000/24000 raises a `VoiceryError` and issues
no HTTP request at all. -/
theorem stream_invalid_encoding_or_rate_no_request (c : Voicery) (sp : SpeakerArg)
    (text : String) (st : Option StyleArg) (encoding : String) (sample_rate : Int)
    (ssml : Bool) (respChunks : List Bytes)
    (h : encoding ∉ (["mp3", "wav", "pcm"] : List String) ∨
         sample_rate ∉ ([8000, 16000, 24000] : List Int)) :
    (∃ msg, (Voicery.streamBody c sp text st encoding sample_rate ssml respChunks).1 =
        Except.error (PyExn.VoiceryError msg)) ∧
    (Voicery.streamBody c sp text st encoding sample_rate ssml respChunks).2 = [] := by
  unfold Voicery.streamBody
  rcases resolveSpeaker_cases sp with ⟨sid, hsp⟩ | ⟨msg, hsp⟩
  · rcases resolveStyle_cases st with ⟨stid, hst⟩ | ⟨msg, hst⟩
    · rw [hsp, hst]
      by_cases henc : encoding ∈ (["mp3", "wav", "pcm"] : List String)
      · rcases h with henc' | hsr
        · exact absurd henc henc'
        · simp [henc, hsr]
      · simp [henc]
    · rw [hsp, hst]
      exact ⟨⟨msg, rfl⟩, rfl⟩
  · rw [hsp]
    exact ⟨⟨msg, rfl⟩, rfl⟩

/-- Witness for C3 at a concrete call with an unsupported encoding. -/
theorem stream_invalid_encoding_or_rate_no_request_witness :
    (∃ msg, (Voicery.streamBody (Voicery.init none) (SpeakerArg.str "steve") "hello"
        none "ogg" 24000 false []).1 = Except.error (PyExn.VoiceryError msg)) ∧
    (Voicery.streamBody (Voicery.init none) (SpeakerArg.str "steve") "hello"
        none "ogg" 24000 false []).2 = [] :=
  stream_invalid_encoding_or_rate_no_request (Voicery.init none)
    (SpeakerArg.str "steve") "hello" none "ogg" 24000 false [] (Or.inl (by decide))

/-- C4 counterexample: on a handle whose cached listing knows only speaker
"s1", streaming with the unknown speaker id "ghost" raises nothing and
issues the POST anyway — the string is never checked against the listing. -/
theorem stream_unknown_speaker_not_rejected :
    (((Voicery.mk none (some [("s1",
        Speaker.mk "s1" "Ann" "F" "en" [("calm", Style.mk "calm" "Calm")] "calm")])).available_speakers.getD []).map
          Prod.fst = ["s1"]) ∧
    ("ghost" ∉ (["s1"] : List String)) ∧
    ((Voicery.mk none (some [("s1",
        Speaker.mk "s1" "Ann" "F" "en" [("calm", Style.mk "calm" "Calm")] "calm")])).streamBody
        (SpeakerArg.str "ghost") "hello" none "mp3" 24000 false [[7]]).1 =
      Except.ok [[7]] ∧
    ((Voicery.mk none (some [("s1",
        Speaker.mk "s1" "Ann" "F" "en" [("calm", Style.mk "calm" "Calm")] "calm")])).streamBody
        (SpeakerArg.str "ghost") "hello" none "mp3" 24000 false [[7]]).2.length = 1 :=
  ⟨rfl, by decide, rfl, rfl⟩

/-- C4 amended: the speaker argument must be a string (used directly as the
speaker id, with no check against the speaker listing) or a `Speaker` record
(its id is extracted); any non-string, non-`Speaker` value fails with a
`VoiceryError` and no HTTP request is issued. -/
theorem stream_speaker_type_check (c : Voicery) (sp : SpeakerArg) (text : String)
    (st : Option StyleArg) (encoding : String) (sample_rate : Int) (ssml : Bool)
    (respChunks : List Bytes) :
    (∀ s, sp = SpeakerArg.str s → resolveSpeaker sp = Except.ok s) ∧
    (∀ s, sp = SpeakerArg.record s → resolveSpeaker sp = Except.ok s.id) ∧
    (sp = SpeakerArg.other →
      (Voicery.streamBody c sp text st encoding sample_rate ssml respChunks).1 =
        Except.error (PyExn.VoiceryError "Argument speaker must be str or voicery.Speaker") ∧
      (Voicery.streamBody c sp text st encoding sample_rate ssml respChunks).2 = []) := by
  refine ⟨?_, ?_, ?_⟩
  · intro s hs; rw [hs]; rfl
  · intro s hs; rw [hs]; rfl
  · intro hs
    subst hs
    exact ⟨rfl, rfl⟩

/-- Witness for the amended C4: a non-string, non-`Speaker` argument fails
with the `VoiceryError` and no request. -/
theorem stream_speaker_type_check_witness :
    (Voicery.streamBody (Voicery.init none) SpeakerArg.other "hello" none "mp3"
        24000 false []).1 =
      Except.error (PyExn.VoiceryError "Argument speaker must be str or voicery.Speaker") ∧
    (Voicery.streamBody (Voicery.init none) SpeakerArg.other "hello" none "mp3"
        24000 false []).2 = [] :=
  (stream_speaker_type_check (Voicery.init none) SpeakerArg.other "hello" none
    "mp3" 24000 false []).2.2 rfl

/-- Repeated calls on a handle whose cache is already populated change
nothing and issue no requests. -/
theorem callSpeakersN_cached (n : Nat) (c : Voicery) (resp : List RawSpeaker)
    (m : List (String × Speaker)) (hc : c.available_speakers = some m) :
    callSpeakersN n c resp = (c, []) := by
  induction n with
  | zero => rfl
  | succ k ih =>
    unfold callSpeakersN Voicery.get_available_speakers
    rw [hc]
    simpa using ih

/-- C5: starting from an empty cache, a successful listing populates the
cache; `n + 1` successive calls issue exactly one GET in total, and every
call after the first returns the cached mapping unchanged, leaves the handle
unchanged, and issues no request — whatever the transport would now return. -/
theorem speakers_cached_once (c : Voicery) (resp : List RawSpeaker)
    (m : List (String × Speaker)) (n : Nat)
    (hc : c.available_speakers = none) (hp : buildSpeakers resp = some m) :
    (callSpeakersN (n + 1) c resp).2 = [speakersRequest c.key] ∧
    ∀ resp', Voicery.get_available_speakers
        (Voicery.get_available_speakers c resp).2.1 resp' =
      (Except.ok m, (Voicery.get_available_speakers c resp).2.1, []) := by
  have hfirst : Voicery.get_available_speakers c resp =
      (Except.ok m, { c with available_speakers := some m }, [speakersRequest c.key]) := by
    unfold Voicery.get_available_speakers
    rw [hc, hp]
  constructor
  · unfold callSpeakersN
    rw [hfirst]
    simp [callSpeakersN_cached n { c with available_speakers := some m } resp m rfl]
  · intro resp'
    rw [hfirst]
    rfl

/-- Witness for C5 at a concrete handle and response. -/
theorem speakers_cached_once_witness :
    (callSpeakersN 3 (Voicery.init none)
        [RawSpeaker.mk "s1" "Ann" "F" "en" [RawStyle.mk "calm" "Calm"]]).2 =
      [speakersRequest none] ∧
    ∀ resp', Voicery.get_available_speakers
        (Voicery.get_available_speakers (Voicery.init none)
          [RawSpeaker.mk "s1" "Ann" "F" "en" [RawStyle.mk "calm" "Calm"]]).2.1 resp' =
      (Except.ok [("s1", Speaker.mk "s1" "Ann" "F" "en"
          [("calm", Style.mk "calm" "Calm")] "calm")],
        (Voicery.get_available_speakers (Voicery.init none)
          [RawSpeaker.mk "s1" "Ann" "F" "en" [RawStyle.mk "calm" "Calm"]]).2.1, []) :=
  speakers_cached_once (Voicery.init none)
    [RawSpeaker.mk "s1" "Ann" "F" "en" [RawStyle.mk "calm" "Calm"]]
    [("s1", Speaker.mk "s1" "Ann" "F" "en" [("calm", Style.mk "calm" "Calm")] "calm")]
    2 rfl rfl

/-- When the dict comprehension of `get_available_speakers` succeeds, every
speaker object of the response contributes its built record to the mapping. -/
theorem buildSpeakers_mem (resp : List RawSpeaker) (m : List (String × Speaker))
    (hp : buildSpeakers resp = some m) (raw : RawSpeaker) (hmem : raw ∈ resp) :
    ∃ sp, buildSpeaker raw = some sp ∧ (raw.id, sp) ∈ m := by
  induction resp generalizing m with
  | nil => cases hmem
  | cons hd tl ih =>
    unfold buildSpeakers at hp
    rw [List.mapM_cons] at hp
    simp only [Option.bind_eq_bind, Option.bind_eq_some, Option.map_eq_some',
      Option.pure_def, Option.some_inj] at hp
    obtain ⟨b, ⟨sp, hsp, hb⟩, bs, hbs, hm⟩ := hp
    rcases List.mem_cons.mp hmem with heq | htl
    · subst heq
      exact ⟨sp, hsp, by rw [← hm, ← hb]; exact List.mem_cons_self _ _⟩
    · obtain ⟨sp', hsp', hmem'⟩ := ih bs hbs htl
      exact ⟨sp', hsp', by rw [← hm]; exact List.mem_cons_of_mem _ hmem'⟩

/-- C6: whenever the listing parses, every speaker object of the `/speakers`
response yields a `Speaker` record in the mapping whose `default_style` is
the id of the first style in the server-provided styles list. -/
theorem speakers_default_style_first (resp : List RawSpeaker)
    (m : List (String × Speaker)) (raw : RawSpeaker)
    (hp : buildSpeakers resp = some m) (hmem : raw ∈ resp) :
    ∃ sp, buildSpeaker raw = some sp ∧ (raw.id, sp) ∈ m ∧
      ∃ s0 rest, raw.styles = s0 :: rest ∧ sp.default_style = s0.id := by
  obtain ⟨sp, hb, hm⟩ := buildSpeakers_mem resp m hp raw hmem
  refine ⟨sp, hb, hm, ?_⟩
  unfold buildSpeaker at hb
  cases hst : raw.styles with
  | nil => rw [hst] at hb; cases hb
  | cons s0 rest =>
    rw [hst] at hb
    cases hb
    exact ⟨s0, rest, rfl, rfl⟩

/-- Witness for C6 at the worked example of the specification: styles
`calm` then `excited` give `default_style = "calm"`. -/
theorem speakers_default_style_first_witness :
    (∃ sp, buildSpeaker (RawSpeaker.mk "s1" "Ann" "F" "en"
          [RawStyle.mk "calm" "Calm", RawStyle.mk "excited" "Excited"]) = some sp ∧
      ("s1", sp) ∈ [("s1", Speaker.mk "s1" "Ann" "F" "en"
          [("calm", Style.mk "calm" "Calm"), ("excited", Style.mk "excited" "Excited")] "calm")] ∧
      ∃ s0 rest, (RawSpeaker.mk "s1" "Ann" "F" "en"
          [RawStyle.mk "calm" "Calm", RawStyle.mk "excited" "Excited"]).styles = s0 :: rest ∧
        sp.default_style = s0.id) ∧
    (buildSpeaker (RawSpeaker.mk "s1" "Ann" "F" "en"
        [RawStyle.mk "calm" "Calm", RawStyle.mk "excited" "Excited"])).map
      Speaker.default_style = some "calm" :=
  ⟨speakers_default_style_first
    [RawSpeaker.mk "s1" "Ann" "F" "en"
      [RawStyle.mk "calm" "Calm", RawStyle.mk "excited" "Excited"]]
    [("s1", Speaker.mk "s1" "Ann" "F" "en"
      [("calm", Style.mk "calm" "Calm"), ("excited", Style.mk "excited" "Excited")] "calm")]
    (RawSpeaker.mk "s1" "Ann" "F" "en"
      [RawStyle.mk "calm" "Calm", RawStyle.mk "excited" "Excited"])
    rfl (List.mem_singleton.mpr rfl), rfl⟩

/-- C7: for a call that reaches the request, supplying a style adds exactly
the one field `style` (the resolved style id) at the end of the otherwise
identical body; a `Style` record and its raw id, and likewise a `Speaker`
record and its id, produce identical results in every component. -/
theorem stream_style_one_extra_field (c : Voicery) (sp : Speaker) (st : Style)
    (text encoding : String) (sample_rate : Int) (ssml : Bool)
    (respChunks : List Bytes) (sid stid : String)
    (henc : encoding ∈ (["mp3", "wav", "pcm"] : List String))
    (hsr : sample_rate ∈ ([8000, 16000, 24000] : List Int)) :
    (requestBody text sid encoding sample_rate ssml (some stid) =
      requestBody text sid encoding sample_rate ssml none ++ [("style", JVal.str stid)]) ∧
    ((Voicery.streamBody c (SpeakerArg.str sid) text (some (StyleArg.str stid))
        encoding sample_rate ssml respChunks).2.map HttpRequest.body =
      [some (requestBody text sid encoding sample_rate ssml none ++
        [("style", JVal.str stid)])]) ∧
    (Voicery.streamBody c (SpeakerArg.str sid) text (some (StyleArg.record st))
        encoding sample_rate ssml respChunks =
      Voicery.streamBody c (SpeakerArg.str sid) text (some (StyleArg.str st.id))
        encoding sample_rate ssml respChunks) ∧
    (Voicery.streamBody c (SpeakerArg.record sp) text (some (StyleArg.str stid))
        encoding sample_rate ssml respChunks =
      Voicery.streamBody c (SpeakerArg.str sp.id) text (some (StyleArg.str stid))
        encoding sample_rate ssml respChunks) := by
  refine ⟨rfl, ?_, rfl, rfl⟩
  unfold Voicery.streamBody
  simp [resolveSpeaker, resolveStyle, henc, hsr, requestBody]

/-- Witness for C7 at a concrete call. -/
theorem stream_style_one_extra_field_witness :
    (requestBody "hello" "steve" "wav" 16000 true (some "calm") =
      requestBody "hello" "steve" "wav" 16000 true none ++ [("style", JVal.str "calm")]) ∧
    ((Voicery.streamBody (Voicery.init (some "k")) (SpeakerArg.str "steve") "hello"
        (some (StyleArg.str "calm")) "wav" 16000 true []).2.map HttpRequest.body =
      [some (requestBody "hello" "steve" "wav" 16000 true none ++
        [("style", JVal.str "calm")])]) ∧
    (Voicery.streamBody (Voicery.init (some "k")) (SpeakerArg.str "steve") "hello"
        (some (StyleArg.record (Style.mk "calm" "Calm"))) "wav" 16000 true [] =
      Voicery.streamBody (Voicery.init (some "k")) (SpeakerArg.str "steve") "hello"
        (some (StyleArg.str (Style.mk "calm" "Calm").id)) "wav" 16000 true []) ∧
    (Voicery.streamBody (Voicery.init (some "k"))
        (SpeakerArg.record (Speaker.mk "steve" "Steve" "M" "en"
          [("calm", Style.mk "calm" "Calm")] "calm")) "hello"
        (some (StyleArg.str "calm")) "wav" 16000 true [] =
      Voicery.streamBody (Voicery.init (some "k"))
        (SpeakerArg.str (Speaker.mk "steve" "Steve" "M" "en"
          [("calm", Style.mk "calm" "Calm")] "calm").id) "hello"
        (some (StyleArg.str "calm")) "wav" 16000 true []) :=
  stream_style_one_extra_field (Voicery.init (some "k"))
    (Speaker.mk "steve" "Steve" "M" "en" [("calm", Style.mk "calm" "Calm")] "calm")
    (Style.mk "calm" "Calm") "hello" "wav" 16000 true [] "steve" "calm"
    (by decide) (by decide)

/-- The Authorization header built by `mkHeaders` is present exactly when a
key is configured, and then carries the Bearer form of that key. -/
theorem mkHeaders_auth_iff (key : Option String) :
    (∃ v, ("Authorization", v) ∈ mkHeaders key) ↔ key.isSome := by
  cases key with
  | none => simp [mkHeaders]
  | some k => simp [mkHeaders]

/-- C8: every request issued by `get_available_speakers` or by `stream`
carries an `Authorization` header exactly when the handle was constructed
with a key. -/
theorem requests_auth_header_iff (c : Voicery) (resp : List RawSpeaker)
    (sp : SpeakerArg) (text : String) (st : Option StyleArg) (encoding : String)
    (sample_rate : Int) (ssml : Bool) (respChunks : List Bytes) (req : HttpRequest)
    (h : req ∈ (Voicery.get_available_speakers c resp).2.2 ∨
         req ∈ (Voicery.streamBody c sp text st encoding sample_rate ssml respChunks).2) :
    ((∃ v, ("Authorization", v) ∈ req.headers) ↔ c.key.isSome) := by
  have hh : req.headers = mkHeaders c.key := by
    rcases h with hg | hs
    · unfold Voicery.get_available_speakers at hg
      rcases hc : c.available_speakers with _ | m
      · rw [hc] at hg
        rcases hb : buildSpeakers resp with _ | m'
        · rw [hb] at hg
          simp at hg
          rw [hg]
          rfl
        · rw [hb] at hg
          simp at hg
          rw [hg]
          rfl
      · rw [hc] at hg
        simp at hg
    · unfold Voicery.streamBody at hs
      rcases resolveSpeaker_cases sp with ⟨sid, hsp⟩ | ⟨msg, hsp⟩
      · rw [hsp] at hs
        rcases resolveStyle_cases st with ⟨stid, hst⟩ | ⟨msg, hst⟩
        · rw [hst] at hs
          by_cases henc : encoding ∈ (["mp3", "wav", "pcm"] : List String)
          · by_cases hsr : sample_rate ∈ ([8000, 16000, 24000] : List Int)
            · simp [henc, hsr] at hs
              rw [hs]
            · simp [henc, hsr] at hs
          · simp [henc] at hs
        · rw [hst] at hs
          simp at hs
      · rw [hsp] at hs
        simp at hs
  rw [hh]
  exact mkHeaders_auth_iff c.key

/-- Witness for C8: with a key configured, the single GET of a first
listing carries the Authorization header. -/
theorem requests_auth_header_iff_witness :
    speakersRequest (some "k") ∈ (Voicery.get_available_speakers
        (Voicery.init (some "k"))
        [RawSpeaker.mk "s1" "Ann" "F" "en" [RawStyle.mk "calm" "Calm"]]).2.2 ∧
    ((∃ v, ("Authorization", v) ∈ (speakersRequest (some "k")).headers) ↔
      (Voicery.init (some "k")).key.isSome) :=
  ⟨List.mem_singleton.mpr rfl,
    requests_auth_header_iff (Voicery.init (some "k"))
      [RawSpeaker.mk "s1" "Ann" "F" "en" [RawStyle.mk "calm" "Calm"]]
      (SpeakerArg.str "s1") "hello" none "mp3" 24000 false [] (speakersRequest (some "k"))
      (Or.inl (List.mem_singleton.mpr rfl))⟩

/-- Writing a path stores exactly the written bytes at that path. -/
theorem FS.read_writeFile (fs : FS) (p : String) (d : Bytes) :
    FS.read (FS.writeFile fs p d) p = some d := by
  unfold FS.read FS.writeFile
  simp [List.find?]

/-- C9 counterexample: synthesizing to a path that already holds bytes
succeeds (mode "wb" truncates rather than failing) and replaces the old
contents with the new buffer — no exclusive-open error occurs. -/
theorem synthesize_overwrites_existing_file :
    FS.read [("out.mp3", [9, 9, 9])] "out.mp3" = some [9, 9, 9] ∧
    (Voicery.synthesize (Voicery.init none) (SpeakerArg.str "steve") "hello"
        (some (OutputArg.path "out.mp3")) none "mp3" 24000 false [[1, 2]]
        [("out.mp3", [9, 9, 9])]).1 = Except.ok none ∧
    FS.read (Voicery.synthesize (Voicery.init none) (SpeakerArg.str "steve") "hello"
        (some (OutputArg.path "out.mp3")) none "mp3" 24000 false [[1, 2]]
        [("out.mp3", [9, 9, 9])]).2.1 "out.mp3" = some [1, 2] := by
  refine ⟨rfl, rfl, ?_⟩
  decide

/-- C9 amended: with a path as `output`, the file is opened for binary
write with truncation ("wb", not exclusive): even when the path already
holds bytes, `synthesize` returns `None` without error and the file
afterwards holds exactly the drained buffer. -/
theorem synthesize_path_truncating_write (c : Voicery) (sp : SpeakerArg)
    (text : String) (st : Option StyleArg) (encoding : String) (sample_rate : Int)
    (ssml : Bool) (respChunks chunks : List Bytes) (trace : List HttpRequest)
    (p : String) (fs : FS) (old : Bytes)
    (hstream : Voicery.streamBody c sp text st encoding sample_rate ssml respChunks =
      (Except.ok chunks, trace))
    (hold : FS.read fs p = some old) :
    (Voicery.synthesize c sp text (some (OutputArg.path p)) st encoding sample_rate
        ssml respChunks fs).1 = Except.ok none ∧
    FS.read (Voicery.synthesize c sp text (some (OutputArg.path p)) st encoding
        sample_rate ssml respChunks fs).2.1 p = some (joinBytes chunks) := by
  unfold Voicery.synthesize
  rw [hstream]
  exact ⟨rfl, FS.read_writeFile fs p (joinBytes chunks)⟩

/-- Witness for the amended C9 at a concrete call over an existing file. -/
theorem synthesize_path_truncating_write_witness :
    (Voicery.synthesize (Voicery.init none) (SpeakerArg.str "steve") "hello"
        (some (OutputArg.path "a.wav")) none "wav" 8000 false [[4], [5, 6]]
        [("a.wav", [0])]).1 = Except.ok none ∧
    FS.read (Voicery.synthesize (Voicery.init none) (SpeakerArg.str "steve") "hello"
        (some (OutputArg.path "a.wav")) none "wav" 8000 false [[4], [5, 6]]
        [("a.wav", [0])]).2.1 "a.wav" = some (joinBytes [[4], [5, 6]]) :=
  synthesize_path_truncating_write (Voicery.init none) (SpeakerArg.str "steve")
    "hello" none "wav" 8000 false [[4], [5, 6]] [[4], [5, 6]] _ "a.wav"
    [("a.wav", [0])] [0] rfl (by decide)

/-- C10: calling the generator function `stream` executes none of its body:
for any arguments — valid or not — the call returns a generator object,
raises nothing and issues no request; validation errors and the POST happen
only when the generator is advanced, which runs the body (in particular a
non-string, non-`Speaker` argument raises only at that point). -/
theorem stream_call_is_lazy (c : Voicery) (sp : SpeakerArg) (text : String)
    (st : Option StyleArg) (encoding : String) (sample_rate : Int) (ssml : Bool) :
    (∃ g, (Voicery.stream c sp text st encoding sample_rate ssml).1 = Except.ok g ∧
      ∀ respChunks, g.run respChunks =
        Voicery.streamBody c sp text st encoding sample_rate ssml respChunks) ∧
    (Voicery.stream c sp text st encoding sample_rate ssml).2 = [] ∧
    (∀ respChunks, (Voicery.streamBody c SpeakerArg.other text st encoding
        sample_rate ssml respChunks).1 =
      Except.error (PyExn.VoiceryError "Argument speaker must be str or voicery.Speaker")) := by
  exact ⟨⟨_, rfl, fun _ => rfl⟩, rfl, fun _ => rfl⟩
